import Mathlib

/-!
Shallow embedding of the `mpg123` Go package (file `mpg123/mpg123.go`):
a cgo binding around the external libmpg123 decode engine plus the
streaming adapter `DecoderReader` that turns the engine's feed/poll
interface into an `io.Reader`-style pull interface.

The external engine (libmpg123) and the upstream `io.Reader` source are
oracles: their behaviour is modelled by explicit result scripts carried in
the state, consumed one entry per call.  The Go code itself is translated
verbatim: every branch of `DecoderReader.Read`, `Decoder.Read`,
`Decoder.Feed`, `Nuke`, `Decoder.DecoderReader` and `NewDecoder` appears
below in the same order as in the source.
-/

/-- Status codes returned by `C.mpg123_read`, as consumed by the Go code:
`MPG123_NEW_FORMAT`, `MPG123_OK`, `MPG123_DONE`, `MPG123_NEED_MORE`, and
any other code (`other c`, e.g. `MPG123_ERR = -1`) which the Go switch in
`DecoderReader.Read` does not name. -/
inductive Msg where
  | newFormat
  | ok
  | done
  | needMore
  | other (c : Int)
  deriving Repr, DecidableEq

/-- Go `error` values that occur in this package: `io.EOF`, the package's
own `EOF = errors.New("EOF")` sentinel (a distinct value!), an upstream
source error (non-EOF, identified by an abstract code), and an mpg123
wrapper error built with `fmt.Errorf(..., strerror)`. -/
inductive GoError where
  | ioEOF
  | pkgEOF
  | srcErr (code : Nat)
  | mpgErr (msg : String)
  deriving Repr, DecidableEq

/-- One result of `src.Read(buf)` on the upstream `io.Reader`:
`(n, nil)`, `(n, io.EOF)` or `(n, err)` with a non-EOF error. -/
inductive SrcResult where
  | ok (n : Nat)
  | eof (n : Nat)
  | fail (code : Nat) (n : Nat)
  deriving Repr, DecidableEq

/-- Model of the Go `Decoder` struct (which holds the `*C.mpg123_handle`)
together with the engine-side state observable through that handle.
`formats` is the engine's allowed-output-format table, `curFormat` the
currently negotiated format reported by `mpg123_getformat`, `errMsg` the
diagnostic string `strerror` would return.  `feedScript`, `readScript`
and `closeScript` are the oracle scripts for the corresponding C calls
(consumed front to back); `closeCalls`/`deleteCalls` count the calls to
`mpg123_close`/`mpg123_delete` made on this handle. -/
structure Decoder where
  formats : List (Int × Int × Int)
  curFormat : Int × Int × Int
  openedFeed : Bool
  errMsg : String
  feedScript : List Bool
  readScript : List (Nat × Msg)
  closeScript : List Bool
  closeCalls : Nat
  deleteCalls : Nat
  deriving Repr, DecidableEq

/-- `C.mpg123_read(handle, &buf[0], len, &done)`: the engine writes `done`
bytes and reports a status.  The oracle consumes one entry of
`readScript`; an exhausted script behaves as an engine that keeps
answering `(0, MPG123_NEED_MORE)`. -/
def mpg123_read (d : Decoder) : (Nat × Msg) × Decoder :=
  match d.readScript with
  | [] => ((0, Msg.needMore), d)
  | r :: rest => (r, { d with readScript := rest })

/-- `C.mpg123_feed`: `true` means the C call returned a non-OK code.  An
exhausted script behaves as an engine that keeps accepting input. -/
def mpg123_feed (d : Decoder) : Bool × Decoder :=
  match d.feedScript with
  | [] => (false, d)
  | b :: rest => (b, { d with feedScript := rest })

/-- `func (d *Decoder) FormatNone()`: `mpg123_format_none` clears the
allowed-format table. -/
def Decoder.FormatNone (d : Decoder) : Decoder :=
  { d with formats := [] }

/-- `func (d *Decoder) Format(rate, channels, encodings)`: `mpg123_format`
adds one allowed format to the table. -/
def Decoder.Format (d : Decoder) (rate channels encodings : Int) : Decoder :=
  { d with formats := d.formats ++ [(rate, channels, encodings)] }

/-- `func (d *Decoder) GetFormat()`: `mpg123_getformat` reports the
currently negotiated format. -/
def Decoder.GetFormat (d : Decoder) : Int × Int × Int :=
  d.curFormat

/-- `func (d *Decoder) OpenFeed()`: `mpg123_open_feed` puts the handle in
incremental-feed mode (its failure path is not the subject of any claim
and is not modelled). -/
def Decoder.OpenFeed (d : Decoder) : Decoder :=
  { d with openedFeed := true }

/-- `func (d *Decoder) Close() error`: calls `mpg123_close` and wraps a
non-OK code as `fmt.Errorf("mpg123 error: %s", d.strerror())`. -/
def Decoder.Close (d : Decoder) : Decoder × Option GoError :=
  match d.closeScript with
  | [] => ({ d with closeCalls := d.closeCalls + 1 }, none)
  | b :: rest =>
    ({ d with closeCalls := d.closeCalls + 1, closeScript := rest },
     if b then some (GoError.mpgErr d.errMsg) else none)

/-- `func (d *Decoder) Delete()`: `mpg123_delete` on the handle. -/
def Decoder.Delete (d : Decoder) : Decoder :=
  { d with deleteCalls := d.deleteCalls + 1 }

/-- `func (d *Decoder) Read(buf []byte) (int, error)`.  `&buf[0]` on a
zero-length slice panics before the C call is made (`none`); otherwise
the engine is polled once and the status is mapped:
`MPG123_DONE ↦ EOF` (the package sentinel), `MPG123_OK ↦ nil`, anything
else wraps `strerror` in an error. -/
def Decoder.Read (d : Decoder) (bufLen : Nat) :
    Option (Decoder × Nat × Option GoError) :=
  if bufLen = 0 then none
  else
    let ((done, msg), d1) := mpg123_read d
    if msg = Msg.done then some (d1, done, some GoError.pkgEOF)
    else if msg ≠ Msg.ok then some (d1, done, some (GoError.mpgErr d1.errMsg))
    else some (d1, done, none)

/-- `func (d *Decoder) Feed(buf []byte) error`.  `&buf[0]` on a
zero-length slice panics before the C call (`none`); otherwise
`mpg123_feed` is called and a non-OK code wraps `strerror`. -/
def Decoder.Feed (d : Decoder) (bufLen : Nat) :
    Option (Decoder × Option GoError) :=
  if bufLen = 0 then none
  else
    let (errc, d1) := mpg123_feed d
    if errc then some (d1, some (GoError.mpgErr d1.errMsg))
    else some (d1, none)

/-- Which argument `NewDecoder(decoder string)` passes to `mpg123_new`:
the Go code passes the null pointer when `decoder != ""` and the C string
of `decoder` otherwise. -/
def newDecoderEngineArg (decoder : String) : Option String :=
  if decoder ≠ "" then none else some decoder

/-- Model of the Go `DecoderReader` struct, plus the process-global `log`
output it produces: `feedErrLog` records errors logged by the feed phase,
`fmtLogs` the formats logged on `MPG123_NEW_FORMAT`.  `src` is the oracle
script of the upstream reader's results. -/
structure DecoderReader where
  decoder : Decoder
  src : List SrcResult
  fps : Int
  channels : Int
  paranoid : Bool
  feedErrLog : List GoError
  fmtLogs : List (Int × Int × Int)
  deriving Repr, DecidableEq

/-- `func (dr *DecoderReader) Paranoid() *DecoderReader`. -/
def DecoderReader.Paranoid (dr : DecoderReader) : DecoderReader :=
  { dr with paranoid := true }

/-- `func (dr DecoderReader) Nuke()`: `dr.decoder.Close()` with the error
discarded, then `dr.decoder.Delete()`. -/
def DecoderReader.Nuke (dr : DecoderReader) : DecoderReader :=
  let (d1, _) := dr.decoder.Close
  { dr with decoder := d1.Delete }

/-- `src.Read(buf)` on the adapter's 64 KiB scratch buffer: consumes one
entry of the source script; an exhausted script behaves as a source that
keeps reporting `(0, io.EOF)`. -/
def srcRead (s : List SrcResult) : SrcResult × List SrcResult :=
  match s with
  | [] => (SrcResult.eof 0, [])
  | r :: rest => (r, rest)

/-- Outcome of the feed phase of one iteration of `DecoderReader.Read`
(lines 216-230 of the Go source): a panic, an early `return n, e`, or
falling through to the poll step with the Go `err` variable's value. -/
inductive FeedPhase where
  | panic (dr : DecoderReader)
  | early (dr : DecoderReader) (n : Nat) (e : Option GoError)
  | cont (dr : DecoderReader) (err : Option GoError)
  deriving Repr, DecidableEq

/-- The feed phase of one loop iteration of `DecoderReader.Read`:
```
if n, err = dr.src.Read(buf); err == nil {
        if err = dr.decoder.Feed(buf[0:n]); err != nil {
                log.Print("Error while feeding to mpg123: ", err)
        }
} else if err != io.EOF { // EOF in Feed does NOT mean EOF in Read!
        if dr.paranoid { dr.Nuke() }
        return 0, err
} else if dr.paranoid {
        dr.Nuke()
        return 0, io.EOF
}
```
Note that after a successful upstream read the Go `err` variable is
reassigned to `Feed`'s result, and that `Feed(buf[0:n])` panics when
`n = 0` (and `buf[0:n]` itself panics when `n` exceeds the 64 KiB scratch
buffer). -/
def feedPhase (dr : DecoderReader) : FeedPhase :=
  let (res, rest) := srcRead dr.src
  let dr1 : DecoderReader := { dr with src := rest }
  match res with
  | SrcResult.ok n =>
    if 64 * 1024 < n then FeedPhase.panic dr1
    else
      match dr1.decoder.Feed n with
      | none => FeedPhase.panic dr1
      | some (d1, ferr) =>
        match ferr with
        | none => FeedPhase.cont { dr1 with decoder := d1 } none
        | some e =>
          FeedPhase.cont
            { dr1 with decoder := d1, feedErrLog := dr1.feedErrLog ++ [e] }
            (some e)
  | SrcResult.eof _ =>
    if dr1.paranoid then FeedPhase.early dr1.Nuke 0 (some GoError.ioEOF)
    else FeedPhase.cont dr1 (some GoError.ioEOF)
  | SrcResult.fail c _ =>
    if dr1.paranoid then FeedPhase.early dr1.Nuke 0 (some (GoError.srcErr c))
    else FeedPhase.early dr1 0 (some (GoError.srcErr c))

/-- The `case C.MPG123_NEW_FORMAT` arm logs the newly negotiated format
(queried via `GetFormat`) before falling through to the common arm. -/
def logNewFormat (dr : DecoderReader) (msg : Msg) : DecoderReader :=
  if msg = Msg.newFormat then { dr with fmtLogs := dr.fmtLogs ++ [dr.decoder.GetFormat] }
  else dr

/-- Result of one call to `DecoderReader.Read`: a normal
`return n, e` (carrying the final adapter state), a runtime panic, or
fuel exhaustion (the Go loop has not yet returned). -/
inductive ReadOutcome where
  | ret (dr : DecoderReader) (n : Nat) (e : Option GoError)
  | panicked (dr : DecoderReader)
  | spin (dr : DecoderReader)
  deriving Repr, DecidableEq

/-- The `for` loop of `func (dr DecoderReader) Read(bytes []byte)`,
one fuel unit per iteration.  After the feed phase, `&bytes[0]` panics if
the caller's slice is empty; otherwise the engine is polled once and the
Go `switch msg` runs: `NEW_FORMAT` logs and falls through, and the shared
`OK`/`DONE`/`NEED_MORE` arm returns `(done, nil)` when `done > 0`,
returns `(done, io.EOF)` after `Nuke()` when the upstream had reported
EOF, and otherwise loops; any other status has no case and loops. -/
def DecoderReader.readLoop (bytesLen : Nat) : Nat → DecoderReader → ReadOutcome
  | 0, dr => ReadOutcome.spin dr
  | fuel + 1, dr =>
    match feedPhase dr with
    | FeedPhase.panic dr1 => ReadOutcome.panicked dr1
    | FeedPhase.early dr1 n e => ReadOutcome.ret dr1 n e
    | FeedPhase.cont dr1 err =>
      if bytesLen = 0 then ReadOutcome.panicked dr1
      else
        let ((done, msg), d1) := mpg123_read dr1.decoder
        let dr2 : DecoderReader := { dr1 with decoder := d1 }
        match msg with
        | Msg.newFormat | Msg.ok | Msg.done | Msg.needMore =>
          let dr3 := logNewFormat dr2 msg
          if 0 < done then ReadOutcome.ret dr3 done none
          else if err = some GoError.ioEOF then
            ReadOutcome.ret dr3.Nuke done (some GoError.ioEOF)
          else DecoderReader.readLoop bytesLen fuel dr3
        | Msg.other _ => DecoderReader.readLoop bytesLen fuel dr2

/-- `func (dr DecoderReader) Read(bytes []byte) (int, error)`, with
`bytesLen = len(bytes)` and enough fuel for the iterations the oracle
scripts drive. -/
def DecoderReader.Read (dr : DecoderReader) (bytesLen fuel : Nat) : ReadOutcome :=
  DecoderReader.readLoop bytesLen fuel dr

/-- `func (d *Decoder) DecoderReader(src, fps, channels, encoding)`:
`FormatNone`, then `Format(fps, channels, encoding)`, then the struct
literal with `paranoid: false`.  No open call is made. -/
def mkDecoderReader (d : Decoder) (src : List SrcResult)
    (fps channels encoding : Int) : DecoderReader :=
  let d1 := d.FormatNone
  let d2 := d1.Format fps channels encoding
  { decoder := d2, src := src, fps := fps, channels := channels,
    paranoid := false, feedErrLog := [], fmtLogs := [] }

/-- Method-style name for `mkDecoderReader`, matching the Go receiver
method `Decoder.DecoderReader`. -/
def Decoder.DecoderReader (d : Decoder) (src : List SrcResult)
    (fps channels encoding : Int) : DecoderReader :=
  mkDecoderReader d src fps channels encoding

/-- `func (d *Decoder) MonoDecoderReader(src, fps, encoding)`. -/
def Decoder.MonoDecoderReader (d : Decoder) (src : List SrcResult)
    (fps encoding : Int) :=
  Decoder.DecoderReader d src fps 1 encoding

/-! ### Concrete fixtures for counterexamples and witnesses -/

/-- A concrete handle state: feed mode open, all oracle scripts empty. -/
def d0 : Decoder :=
  { formats := [], curFormat := (0, 0, 0), openedFeed := true, errMsg := "e",
    feedScript := [], readScript := [], closeScript := [],
    closeCalls := 0, deleteCalls := 0 }

/-- A concrete adapter over `d0` with an exhausted source. -/
def dr0 : DecoderReader :=
  { decoder := d0, src := [], fps := 44100, channels := 1, paranoid := false,
    feedErrLog := [], fmtLogs := [] }

/-- Whether a `ReadOutcome` is a runtime panic. -/
def ReadOutcome.isPanic : ReadOutcome → Bool
  | ReadOutcome.panicked _ => true
  | _ => false

/-! ### Helper lemmas about the embedding -/

/-- `Nuke` bumps the close and delete call counters by exactly one and
touches nothing else of the engine scripts or the adapter fields. -/
theorem Nuke_spec (dr : DecoderReader) :
    dr.Nuke.decoder.closeCalls = dr.decoder.closeCalls + 1 ∧
    dr.Nuke.decoder.deleteCalls = dr.decoder.deleteCalls + 1 ∧
    dr.Nuke.decoder.readScript = dr.decoder.readScript ∧
    dr.Nuke.src = dr.src := by
  cases h : dr.decoder.closeScript <;>
    simp [DecoderReader.Nuke, Decoder.Close, Decoder.Delete, h]

/-- `mpg123_read` only consumes its own script entry. -/
theorem mpg123_read_spec (d : Decoder) :
    (mpg123_read d).2.closeCalls = d.closeCalls ∧
    (mpg123_read d).2.deleteCalls = d.deleteCalls ∧
    (mpg123_read d).2.errMsg = d.errMsg := by
  cases h : d.readScript <;> simp [mpg123_read, h]

/-- `logNewFormat` never changes the decoder state. -/
theorem logNewFormat_decoder (dr : DecoderReader) (msg : Msg) :
    (logNewFormat dr msg).decoder = dr.decoder := by
  unfold logNewFormat; split <;> rfl

/-- An early return from the feed phase carries zero bytes, and its error
is either `io.EOF` (the fail-fast-on-EOF branch, which has just torn the
handle down) or an upstream non-EOF error. -/
theorem feedPhase_early_spec (dr dr1 : DecoderReader) (n : Nat) (e : Option GoError)
    (h : feedPhase dr = FeedPhase.early dr1 n e) :
    n = 0 ∧
    ((e = some GoError.ioEOF ∧
        dr1.decoder.closeCalls = dr.decoder.closeCalls + 1 ∧
        dr1.decoder.deleteCalls = dr.decoder.deleteCalls + 1) ∨
      ∃ c, e = some (GoError.srcErr c)) := by
  unfold feedPhase at h
  cases hs : dr.src with
  | nil =>
    rw [hs] at h
    simp only [srcRead] at h
    cases hp : dr.paranoid <;> simp [hp] at h
    obtain ⟨h1, h2, h3⟩ := h
    subst h1; subst h2; subst h3
    refine ⟨rfl, Or.inl ⟨rfl, ?_, ?_⟩⟩
    · exact (Nuke_spec _).1
    · exact (Nuke_spec _).2.1
  | cons r rest =>
    rw [hs] at h
    simp only [srcRead] at h
    cases r with
    | ok n' =>
      by_cases h64 : 64 * 1024 < n'
      · simp [h64] at h
      · by_cases h0 : n' = 0
        · simp [h64, h0, Decoder.Feed] at h
        · cases hf : dr.decoder.feedScript with
          | nil => simp [h64, h0, Decoder.Feed, mpg123_feed, hf] at h
          | cons b fs =>
            cases b <;> simp [h64, h0, Decoder.Feed, mpg123_feed, hf] at h
    | eof k =>
      cases hp : dr.paranoid <;> simp [hp] at h
      obtain ⟨h1, h2, h3⟩ := h
      subst h1; subst h2; subst h3
      refine ⟨rfl, Or.inl ⟨rfl, ?_, ?_⟩⟩
      · exact (Nuke_spec _).1
      · exact (Nuke_spec _).2.1
    | fail c k =>
      cases hp : dr.paranoid <;> simp [hp] at h <;>
        obtain ⟨h1, h2, h3⟩ := h <;> subst h1 <;> subst h2 <;> subst h3 <;>
        exact ⟨rfl, Or.inr ⟨c, rfl⟩⟩

/-- Falling through the feed phase to the poll step never touches the
close/delete counters. -/
theorem feedPhase_cont_spec (dr dr1 : DecoderReader) (err : Option GoError)
    (h : feedPhase dr = FeedPhase.cont dr1 err) :
    dr1.decoder.closeCalls = dr.decoder.closeCalls ∧
    dr1.decoder.deleteCalls = dr.decoder.deleteCalls := by
  unfold feedPhase at h
  cases hs : dr.src with
  | nil =>
    rw [hs] at h
    simp only [srcRead] at h
    cases hp : dr.paranoid <;> simp [hp] at h
    obtain ⟨h1, -⟩ := h
    subst h1; exact ⟨rfl, rfl⟩
  | cons r rest =>
    rw [hs] at h
    simp only [srcRead] at h
    cases r with
    | ok n' =>
      by_cases h64 : 64 * 1024 < n'
      · simp [h64] at h
      · by_cases h0 : n' = 0
        · simp [h64, h0, Decoder.Feed] at h
        · cases hf : dr.decoder.feedScript with
          | nil =>
            simp [h64, h0, Decoder.Feed, mpg123_feed, hf] at h
            obtain ⟨h1, -⟩ := h
            subst h1
            exact ⟨rfl, rfl⟩
          | cons b fs =>
            cases b <;>
              simp [h64, h0, Decoder.Feed, mpg123_feed, hf] at h <;>
              obtain ⟨h1, -⟩ := h <;> subst h1 <;> exact ⟨rfl, rfl⟩
    | eof k =>
      cases hp : dr.paranoid <;> simp [hp] at h
      obtain ⟨h1, -⟩ := h
      subst h1; exact ⟨rfl, rfl⟩
    | fail c k =>
      cases hp : dr.paranoid <;> simp [hp] at h

/-- Any normal return of the adapter loop carries an error that is `nil`,
`io.EOF`, or an upstream non-EOF error (never a feed/mpg123 wrapper
error); and whenever the returned error is `io.EOF` the byte count is
zero and the close and delete counters were bumped exactly once during
the call. -/
theorem readLoop_ret_spec (bytesLen fuel : Nat) (dr dr2 : DecoderReader)
    (n : Nat) (e : Option GoError)
    (h : DecoderReader.readLoop bytesLen fuel dr = ReadOutcome.ret dr2 n e) :
    (e = none ∨ e = some GoError.ioEOF ∨ ∃ c, e = some (GoError.srcErr c)) ∧
    (e = some GoError.ioEOF →
      n = 0 ∧ dr2.decoder.closeCalls = dr.decoder.closeCalls + 1 ∧
      dr2.decoder.deleteCalls = dr.decoder.deleteCalls + 1) := by
  induction fuel generalizing dr with
  | zero => simp [DecoderReader.readLoop] at h
  | succ fuel ih =>
    rw [DecoderReader.readLoop] at h
    cases hfp : feedPhase dr with
    | panic dr1 => rw [hfp] at h; simp at h
    | early dr1 n1 e1 =>
      rw [hfp] at h
      simp only [ReadOutcome.ret.injEq] at h
      obtain ⟨hdr, hn, he⟩ := h
      subst hdr; subst hn; subst he
      obtain ⟨hn0, hcase⟩ := feedPhase_early_spec dr dr1 n1 e1 hfp
      constructor
      · rcases hcase with ⟨he, -⟩ | ⟨c, he⟩
        · exact Or.inr (Or.inl he)
        · exact Or.inr (Or.inr ⟨c, he⟩)
      · intro he
        rcases hcase with ⟨-, hc, hd⟩ | ⟨c, hc⟩
        · exact ⟨hn0, hc, hd⟩
        · rw [hc] at he; simp at he
    | cont dr1 err =>
      rw [hfp] at h
      dsimp only at h
      obtain ⟨hc1, hc2⟩ := feedPhase_cont_spec dr dr1 err hfp
      by_cases hb : bytesLen = 0
      · rw [if_pos hb] at h; simp at h
      · rw [if_neg hb] at h
        rcases hr : mpg123_read dr1.decoder with ⟨⟨done, msg⟩, d1⟩
        obtain ⟨hr1, hr2, -⟩ := mpg123_read_spec dr1.decoder
        rw [hr] at h hr1 hr2
        dsimp only at h hr1 hr2
        cases msg
        rotate_left 4
        · dsimp only at h
          obtain ⟨hshape, heof⟩ := ih _ h
          refine ⟨hshape, fun he => ?_⟩
          obtain ⟨hn0, hcc, hdc⟩ := heof he
          refine ⟨hn0, ?_, ?_⟩
          · rw [hcc]; dsimp only; rw [hr1, hc1]
          · rw [hdc]; dsimp only; rw [hr2, hc2]
        all_goals (
          dsimp only at h
          by_cases hd : 0 < done
          · rw [if_pos hd] at h
            simp only [ReadOutcome.ret.injEq] at h
            obtain ⟨hdr, hn, he⟩ := h
            subst he
            refine ⟨Or.inl rfl, fun he => ?_⟩
            simp at he
          · rw [if_neg hd] at h
            by_cases heq : err = some GoError.ioEOF
            · rw [if_pos heq] at h
              simp only [ReadOutcome.ret.injEq] at h
              obtain ⟨hdr, hn, he⟩ := h
              subst hdr; subst hn; subst he
              refine ⟨Or.inr (Or.inl rfl),
                fun _ => ⟨Nat.eq_zero_of_not_pos hd, ?_, ?_⟩⟩
              · rw [(Nuke_spec _).1, logNewFormat_decoder]
                dsimp only; rw [hr1, hc1]
              · rw [(Nuke_spec _).2.1, logNewFormat_decoder]
                dsimp only; rw [hr2, hc2]
            · rw [if_neg heq] at h
              obtain ⟨hshape, heof⟩ := ih _ h
              refine ⟨hshape, fun he => ?_⟩
              obtain ⟨hn0, hcc, hdc⟩ := heof he
              refine ⟨hn0, ?_, ?_⟩
              · rw [hcc, logNewFormat_decoder]; dsimp only; rw [hr1, hc1]
              · rw [hdc, logNewFormat_decoder]; dsimp only; rw [hr2, hc2])

/-- One engine poll with a scripted next result consumes exactly that
script entry. -/
theorem mpg123_read_cons (d : Decoder) (r : Nat × Msg) (rs : List (Nat × Msg))
    (h : d.readScript = r :: rs) :
    mpg123_read d = (r, { d with readScript := rs }) := by
  simp [mpg123_read, h]

/-! ### C1 -/

/-- C1, counterexample: with the fail-fast ("paranoid") flag set, an
upstream read reporting logical EOF makes the adapter tear down and
return end-of-stream IMMEDIATELY, without polling the decoder — the
engine's read script (which would have produced 5 bytes) is left
untouched.  This refutes the claim's "whatever the fail-fast flag ... it
proceeds to poll the decoder". -/
theorem c1_paranoid_eof_skips_poll_counterexample :
    DecoderReader.Read
        { dr0 with
          paranoid := true, src := [SrcResult.eof 0],
          decoder := { d0 with readScript := [(5, Msg.ok)] } } 4096 9 =
      ReadOutcome.ret
        { dr0 with
          paranoid := true, src := [],
          decoder :=
            { d0 with
              readScript := [(5, Msg.ok)], closeCalls := 1,
              deleteCalls := 1 } }
        0 (some GoError.ioEOF) ∧
    ({ d0 with
        readScript := [(5, Msg.ok)], closeCalls := 1,
        deleteCalls := 1 } : Decoder).readScript = [(5, Msg.ok)] := by
  decide

/-- C1 (amended): when fail-fast is off, an upstream read reporting
logical EOF with no bytes is not an immediate end-of-stream: the adapter
proceeds to poll the decoder, surfaces the poll's bytes if it produced
any, and returns end-of-stream (after teardown) only if the poll produced
zero bytes with one of the four handled statuses.  When fail-fast is on,
the adapter tears down and returns end-of-stream immediately, without
polling (the engine read script is untouched). -/
theorem c1_upstream_eof_amended
    (dr : DecoderReader) (bytesLen fuel k done : Nat) (msg : Msg)
    (rest : List SrcResult) (rs : List (Nat × Msg))
    (hsrc : dr.src = SrcResult.eof k :: rest)
    (hread : dr.decoder.readScript = (done, msg) :: rs)
    (hb : bytesLen ≠ 0)
    (hmsg : msg = Msg.ok ∨ msg = Msg.done ∨ msg = Msg.needMore ∨ msg = Msg.newFormat) :
    (dr.paranoid = false → 0 < done →
      DecoderReader.readLoop bytesLen (fuel + 1) dr =
        ReadOutcome.ret
          (logNewFormat
            { dr with src := rest, decoder := { dr.decoder with readScript := rs } } msg)
          done none) ∧
    (dr.paranoid = false → done = 0 →
      DecoderReader.readLoop bytesLen (fuel + 1) dr =
        ReadOutcome.ret
          (logNewFormat
            { dr with src := rest, decoder := { dr.decoder with readScript := rs } } msg).Nuke
          0 (some GoError.ioEOF)) ∧
    (dr.paranoid = true →
      DecoderReader.readLoop bytesLen (fuel + 1) dr =
        ReadOutcome.ret ({ dr with src := rest } : DecoderReader).Nuke 0 (some GoError.ioEOF) ∧
      ({ dr with src := rest } : DecoderReader).Nuke.decoder.readScript = (done, msg) :: rs) := by
  refine ⟨?_, ?_, ?_⟩
  · intro hpar hdone
    have hfp : feedPhase dr = FeedPhase.cont { dr with src := rest } (some GoError.ioEOF) := by
      simp [feedPhase, srcRead, hsrc, hpar]
    rw [DecoderReader.readLoop, hfp]
    dsimp only
    rw [if_neg hb, mpg123_read_cons dr.decoder (done, msg) rs hread]
    rcases hmsg with rfl | rfl | rfl | rfl <;> (dsimp only; rw [if_pos hdone])
  · intro hpar hdone
    subst hdone
    have hfp : feedPhase dr = FeedPhase.cont { dr with src := rest } (some GoError.ioEOF) := by
      simp [feedPhase, srcRead, hsrc, hpar]
    rw [DecoderReader.readLoop, hfp]
    dsimp only
    rw [if_neg hb, mpg123_read_cons dr.decoder (0, msg) rs hread]
    rcases hmsg with rfl | rfl | rfl | rfl <;>
      (dsimp only; rw [if_neg (lt_irrefl 0), if_pos rfl])
  · intro hpar
    have hfp : feedPhase dr =
        FeedPhase.early ({ dr with src := rest } : DecoderReader).Nuke 0 (some GoError.ioEOF) := by
      simp [feedPhase, srcRead, hsrc, hpar]
    constructor
    · rw [DecoderReader.readLoop, hfp]
    · rw [(Nuke_spec _).2.2.1]
      exact hread

/-- C1, witness for the amended theorem at a concrete input: fail-fast
off, source immediately at EOF, engine poll producing 6 bytes. -/
theorem c1_upstream_eof_amended_witness :
    (4 : Nat) ≠ 0 ∧
    DecoderReader.readLoop 4 1
        { dr0 with
          src := [SrcResult.eof 0],
          decoder := { d0 with readScript := [(6, Msg.ok)] } } =
      ReadOutcome.ret dr0 6 none :=
  ⟨by decide,
    (c1_upstream_eof_amended
      { dr0 with
        src := [SrcResult.eof 0],
        decoder := { d0 with readScript := [(6, Msg.ok)] } }
      4 0 0 6 Msg.ok [] [] rfl rfl (by decide) (Or.inl rfl)).1 rfl (by decide)⟩

/-! ### C2 -/

/-- C2, counterexample: the first engine poll returns a hard error status
(`MPG123_ERR = -1`), yet the adapter call returns `(4, nil)` — the bytes
of a LATER poll — surfacing no decode error at all.  This refutes the
claim that a hard engine poll status makes the adapter "return from that
call surfacing a decode error". -/
theorem c2_hard_error_not_surfaced_counterexample :
    DecoderReader.Read
        { dr0 with
          src := [SrcResult.ok 3, SrcResult.ok 2],
          decoder := { d0 with readScript := [(0, Msg.other (-1)), (4, Msg.ok)] } } 10 5 =
      ReadOutcome.ret { dr0 with src := [] } 4 none ∧
    ({ dr0 with src := [] } : DecoderReader).decoder.closeCalls = 0 := by
  decide

/-- C2 (amended): a hard engine error status (any status other than OK,
DONE, NEED-MORE-INPUT, FORMAT-CHANGED) is silently ignored by the
adapter: the iteration neither returns nor tears anything down — the
loop directly starts another feed/poll cycle, the only state change
being the consumed script entry. -/
theorem c2_hard_error_ignored_amended
    (dr dr1 : DecoderReader) (err : Option GoError) (bytesLen fuel done : Nat)
    (c : Int) (rs : List (Nat × Msg))
    (hfp : feedPhase dr = FeedPhase.cont dr1 err)
    (hread : dr1.decoder.readScript = (done, Msg.other c) :: rs)
    (hb : bytesLen ≠ 0) :
    DecoderReader.readLoop bytesLen (fuel + 1) dr =
      DecoderReader.readLoop bytesLen fuel
        { dr1 with decoder := { dr1.decoder with readScript := rs } } := by
  rw [DecoderReader.readLoop, hfp]
  dsimp only
  rw [if_neg hb, mpg123_read_cons dr1.decoder (done, Msg.other c) rs hread]

/-- C2, witness for the amended theorem at a concrete input. -/
theorem c2_hard_error_ignored_amended_witness :
    feedPhase
        { dr0 with
          src := [SrcResult.ok 1],
          decoder := { d0 with readScript := [(0, Msg.other 5)] } } =
      FeedPhase.cont
        { dr0 with src := [], decoder := { d0 with readScript := [(0, Msg.other 5)] } }
        none ∧
    DecoderReader.readLoop 8 1
        { dr0 with
          src := [SrcResult.ok 1],
          decoder := { d0 with readScript := [(0, Msg.other 5)] } } =
      DecoderReader.readLoop 8 0 { dr0 with src := [] } :=
  ⟨by decide,
    c2_hard_error_ignored_amended
      { dr0 with
        src := [SrcResult.ok 1],
        decoder := { d0 with readScript := [(0, Msg.other 5)] } }
      { dr0 with
        src := [], decoder := { d0 with readScript := [(0, Msg.other 5)] } }
      none 8 0 0 5 [] (by decide) rfl (by decide)⟩

/-! ### C3 -/

/-- C3 (confirmed): whenever the adapter's read returns the end-of-stream
sentinel `io.EOF`, the byte count is zero, and the owned handle was torn
down by exactly one `Nuke` during the call: exactly one `mpg123_close`
call (whose error `Nuke` discards by construction) followed by exactly
one `mpg123_delete` call. -/
theorem c3_eos_zero_bytes_and_teardown
    (bytesLen fuel n : Nat) (dr dr2 : DecoderReader)
    (h : DecoderReader.readLoop bytesLen fuel dr =
      ReadOutcome.ret dr2 n (some GoError.ioEOF)) :
    n = 0 ∧ dr2.decoder.closeCalls = dr.decoder.closeCalls + 1 ∧
    dr2.decoder.deleteCalls = dr.decoder.deleteCalls + 1 :=
  (readLoop_ret_spec bytesLen fuel dr dr2 n _ h).2 rfl

/-- C3, witness at a concrete input: fail-fast off, empty source, engine
holding no output. -/
theorem c3_eos_zero_bytes_and_teardown_witness :
    DecoderReader.readLoop 8 1 { dr0 with src := [SrcResult.eof 0] } =
      ReadOutcome.ret
        { dr0 with decoder := { d0 with closeCalls := 1, deleteCalls := 1 } }
        0 (some GoError.ioEOF) ∧
    ((0 : Nat) = 0 ∧
      ({ dr0 with
          decoder := { d0 with closeCalls := 1, deleteCalls := 1 } } :
            DecoderReader).decoder.closeCalls =
        ({ dr0 with src := [SrcResult.eof 0] } : DecoderReader).decoder.closeCalls + 1 ∧
      ({ dr0 with
          decoder := { d0 with closeCalls := 1, deleteCalls := 1 } } :
            DecoderReader).decoder.deleteCalls =
        ({ dr0 with src := [SrcResult.eof 0] } : DecoderReader).decoder.deleteCalls + 1) :=
  ⟨by decide,
    c3_eos_zero_bytes_and_teardown 8 1 0 { dr0 with src := [SrcResult.eof 0] }
      { dr0 with decoder := { d0 with closeCalls := 1, deleteCalls := 1 } }
      (by decide)⟩

/-! ### C4 -/

/-- C4 (confirmed): if the engine poll of an iteration returns one of the
statuses OK, DONE, NEED-MORE-INPUT or FORMAT-CHANGED together with a
nonzero byte count, the adapter returns `(count, nil)` from that same
iteration — the returned state shows that no further feed or poll was
performed (only this iteration's source entry and poll entry were
consumed). -/
theorem c4_bytes_surfaced_immediately
    (dr dr1 : DecoderReader) (err : Option GoError) (bytesLen fuel done : Nat)
    (msg : Msg) (rs : List (Nat × Msg))
    (hfp : feedPhase dr = FeedPhase.cont dr1 err)
    (hread : dr1.decoder.readScript = (done, msg) :: rs)
    (hmsg : msg = Msg.ok ∨ msg = Msg.done ∨ msg = Msg.needMore ∨ msg = Msg.newFormat)
    (hdone : 0 < done) (hb : bytesLen ≠ 0) :
    DecoderReader.readLoop bytesLen (fuel + 1) dr =
      ReadOutcome.ret
        (logNewFormat { dr1 with decoder := { dr1.decoder with readScript := rs } } msg)
        done none := by
  rw [DecoderReader.readLoop, hfp]
  dsimp only
  rw [if_neg hb, mpg123_read_cons dr1.decoder (done, msg) rs hread]
  rcases hmsg with rfl | rfl | rfl | rfl <;> (dsimp only; rw [if_pos hdone])

/-- C4, witness at a concrete input: one fed chunk, poll yields 7 bytes
with NEED-MORE status; the second scripted poll entry stays unconsumed. -/
theorem c4_bytes_surfaced_immediately_witness :
    (0 : Nat) < 7 ∧
    DecoderReader.readLoop 16 1
        { dr0 with
          src := [SrcResult.ok 1],
          decoder := { d0 with readScript := [(7, Msg.needMore), (1, Msg.ok)] } } =
      ReadOutcome.ret
        { dr0 with decoder := { d0 with readScript := [(1, Msg.ok)] } } 7 none :=
  ⟨by decide,
    c4_bytes_surfaced_immediately
      { dr0 with
        src := [SrcResult.ok 1],
        decoder := { d0 with readScript := [(7, Msg.needMore), (1, Msg.ok)] } }
      { dr0 with decoder := { d0 with readScript := [(7, Msg.needMore), (1, Msg.ok)] } }
      none 16 0 7 Msg.needMore [(1, Msg.ok)] (by decide) rfl
      (Or.inr (Or.inr (Or.inl rfl))) (by decide) (by decide)⟩

/-! ### C5 -/

/-- C5 (confirmed): when the upstream read fails with a non-EOF error,
the adapter returns `(0, that same error)` from that iteration; with the
fail-fast flag set the handle is first torn down exactly once (close and
delete counters each bumped by one), and with the flag clear the handle
is left untouched. -/
theorem c5_upstream_error_propagation
    (dr : DecoderReader) (c k bytesLen fuel : Nat) (rest : List SrcResult)
    (hsrc : dr.src = SrcResult.fail c k :: rest) :
    (dr.paranoid = true →
      DecoderReader.readLoop bytesLen (fuel + 1) dr =
        ReadOutcome.ret ({ dr with src := rest } : DecoderReader).Nuke 0
          (some (GoError.srcErr c)) ∧
      ({ dr with src := rest } : DecoderReader).Nuke.decoder.closeCalls =
        dr.decoder.closeCalls + 1 ∧
      ({ dr with src := rest } : DecoderReader).Nuke.decoder.deleteCalls =
        dr.decoder.deleteCalls + 1) ∧
    (dr.paranoid = false →
      DecoderReader.readLoop bytesLen (fuel + 1) dr =
        ReadOutcome.ret { dr with src := rest } 0 (some (GoError.srcErr c)) ∧
      ({ dr with src := rest } : DecoderReader).decoder.closeCalls = dr.decoder.closeCalls ∧
      ({ dr with src := rest } : DecoderReader).decoder.deleteCalls =
        dr.decoder.deleteCalls) := by
  constructor
  · intro hpar
    have hfp : feedPhase dr =
        FeedPhase.early ({ dr with src := rest } : DecoderReader).Nuke 0
          (some (GoError.srcErr c)) := by
      simp [feedPhase, srcRead, hsrc, hpar]
    exact ⟨by rw [DecoderReader.readLoop, hfp], (Nuke_spec _).1, (Nuke_spec _).2.1⟩
  · intro hpar
    have hfp : feedPhase dr =
        FeedPhase.early { dr with src := rest } 0 (some (GoError.srcErr c)) := by
      simp [feedPhase, srcRead, hsrc, hpar]
    exact ⟨by rw [DecoderReader.readLoop, hfp], rfl, rfl⟩

/-- C5, witness at a concrete input: fail-fast on, upstream error code 7. -/
theorem c5_upstream_error_propagation_witness :
    DecoderReader.readLoop 8 3
        { dr0 with paranoid := true, src := [SrcResult.fail 7 0] } =
      ReadOutcome.ret
        { dr0 with
          paranoid := true,
          decoder := { d0 with closeCalls := 1, deleteCalls := 1 } }
        0 (some (GoError.srcErr 7)) ∧
    ({ dr0 with
        paranoid := true,
        decoder := { d0 with closeCalls := 1, deleteCalls := 1 } } :
          DecoderReader).decoder.closeCalls = 0 + 1 ∧
    ({ dr0 with
        paranoid := true,
        decoder := { d0 with closeCalls := 1, deleteCalls := 1 } } :
          DecoderReader).decoder.deleteCalls = 0 + 1 :=
  (c5_upstream_error_propagation
    { dr0 with paranoid := true, src := [SrcResult.fail 7 0] }
    7 0 8 2 [] rfl).1 rfl

/-! ### C6 -/

/-- C6 (confirmed): a feed-phase error is appended to the log and
swallowed — the iteration still falls through to the poll step (the feed
phase yields `cont`, never an early return or abort), carrying the feed
error only in the Go `err` variable; and no adapter `read` ever returns
an mpg123 wrapper error (the only returned errors are `nil`, `io.EOF`,
or the upstream's own non-EOF error), so a feed error is never surfaced
to the caller. -/
theorem c6_feed_error_logged_swallowed :
    (∀ (dr : DecoderReader) (n : Nat) (rest : List SrcResult) (fs : List Bool),
      dr.src = SrcResult.ok n :: rest → 0 < n → n ≤ 64 * 1024 →
      dr.decoder.feedScript = true :: fs →
      feedPhase dr =
        FeedPhase.cont
          { dr with
            src := rest, decoder := { dr.decoder with feedScript := fs },
            feedErrLog := dr.feedErrLog ++ [GoError.mpgErr dr.decoder.errMsg] }
          (some (GoError.mpgErr dr.decoder.errMsg))) ∧
    (∀ (bytesLen fuel n : Nat) (dr dr2 : DecoderReader) (e : Option GoError),
      DecoderReader.readLoop bytesLen fuel dr = ReadOutcome.ret dr2 n e →
      ∀ s, e ≠ some (GoError.mpgErr s)) := by
  constructor
  · intro dr n rest fs hsrc hn h64 hf
    have h64' : ¬ 64 * 1024 < n := Nat.not_lt.mpr h64
    have hn' : ¬ n = 0 := by omega
    simp [feedPhase, srcRead, hsrc, h64', Decoder.Feed, hn', mpg123_feed, hf]
  · intro bytesLen fuel n dr dr2 e h s
    rcases (readLoop_ret_spec bytesLen fuel dr dr2 n e h).1 with rfl | rfl | ⟨c, rfl⟩ <;>
      simp

/-- C6, witness: a failing feed on a 2-byte chunk is logged and the phase
continues; and a concrete returned error is not an mpg123 error. -/
theorem c6_feed_error_logged_swallowed_witness :
    ((0 : Nat) < 2 ∧ 2 ≤ 64 * 1024) ∧
    feedPhase
        { dr0 with
          src := [SrcResult.ok 2],
          decoder := { d0 with feedScript := [true] } } =
      FeedPhase.cont
        { dr0 with feedErrLog := [GoError.mpgErr "e"] }
        (some (GoError.mpgErr "e")) ∧
    some (GoError.srcErr 3) ≠ some (GoError.mpgErr "x") :=
  ⟨⟨by decide, by decide⟩,
    c6_feed_error_logged_swallowed.1
      { dr0 with
        src := [SrcResult.ok 2],
        decoder := { d0 with feedScript := [true] } }
      2 [] [] rfl (by decide) (by decide) rfl,
    c6_feed_error_logged_swallowed.2 4 1 0
      { dr0 with src := [SrcResult.fail 3 0] } { dr0 with src := [] }
      (some (GoError.srcErr 3)) (by decide) "x"⟩

/-! ### C7 -/

/-- C7 (confirmed): for any buffer actually handed to the engine (a
zero-length buffer panics before the engine can report anything), the
engine-level `Decoder.Read` maps status DONE to `(count, EOF)` with the
package's end-of-stream sentinel even for a nonzero count, OK to
`(count, nil)`, and any other status to `(count, e)` with an error `e`
that is non-nil and distinct from both end-of-stream sentinels. -/
theorem c7_decoder_read_status
    (d : Decoder) (bufLen done : Nat) (msg : Msg) (rs : List (Nat × Msg))
    (hb : 0 < bufLen) (hread : d.readScript = (done, msg) :: rs) :
    (msg = Msg.done →
      Decoder.Read d bufLen =
        some ({ d with readScript := rs }, done, some GoError.pkgEOF)) ∧
    (msg = Msg.ok →
      Decoder.Read d bufLen = some ({ d with readScript := rs }, done, none)) ∧
    (msg ≠ Msg.done → msg ≠ Msg.ok →
      Decoder.Read d bufLen =
        some ({ d with readScript := rs }, done, some (GoError.mpgErr d.errMsg)) ∧
      GoError.mpgErr d.errMsg ≠ GoError.pkgEOF ∧
      GoError.mpgErr d.errMsg ≠ GoError.ioEOF) := by
  have hb' : ¬ bufLen = 0 := by omega
  refine ⟨?_, ?_, ?_⟩
  · rintro rfl
    simp [Decoder.Read, hb', mpg123_read_cons d _ rs hread]
  · rintro rfl
    simp [Decoder.Read, hb', mpg123_read_cons d _ rs hread]
  · intro h1 h2
    refine ⟨?_, by simp, by simp⟩
    simp [Decoder.Read, hb', mpg123_read_cons d _ rs hread, h1, h2]

/-- C7, witness: DONE with a nonzero count of 3 returns `(3, EOF)`. -/
theorem c7_decoder_read_status_witness :
    (0 : Nat) < 4 ∧
    Decoder.Read { d0 with readScript := [(3, Msg.done)] } 4 =
      some (d0, 3, some GoError.pkgEOF) :=
  ⟨by decide,
    (c7_decoder_read_status { d0 with readScript := [(3, Msg.done)] } 4 3 Msg.done []
      (by decide) rfl).1 rfl⟩

/-! ### C8 -/

/-- C8 (confirmed): the adapter builder first disables all output
formats and then enables exactly the requested one (its handle state is
literally `Format (FormatNone d) fps channels encoding`, whose format
table is the single requested triple), performs no open call (the
feed-mode flag is unchanged), performs no close/delete, and constructs
the adapter with the fail-fast flag off and bound to the given source. -/
theorem c8_builder_single_format (d : Decoder) (src : List SrcResult)
    (fps channels encoding : Int) :
    (Decoder.DecoderReader d src fps channels encoding).decoder =
      Decoder.Format (Decoder.FormatNone d) fps channels encoding ∧
    (Decoder.DecoderReader d src fps channels encoding).decoder.formats =
      [(fps, channels, encoding)] ∧
    (Decoder.DecoderReader d src fps channels encoding).paranoid = false ∧
    (Decoder.DecoderReader d src fps channels encoding).decoder.openedFeed =
      d.openedFeed ∧
    (Decoder.DecoderReader d src fps channels encoding).decoder.closeCalls =
      d.closeCalls ∧
    (Decoder.DecoderReader d src fps channels encoding).decoder.deleteCalls =
      d.deleteCalls ∧
    (Decoder.DecoderReader d src fps channels encoding).src = src := by
  refine ⟨rfl, ?_, rfl, rfl, rfl, rfl, rfl⟩
  simp [Decoder.DecoderReader, mkDecoderReader, Decoder.FormatNone, Decoder.Format]

/-! ### C9 -/

/-- C9 (confirmed): `NewDecoder` passes the null engine name (requesting
the default engine) to `mpg123_new` precisely when the supplied name is
non-empty, and passes the supplied string through only when it is the
empty string — the condition is inverted relative to the obvious
intent. -/
theorem c9_new_decoder_name_inverted :
    (∀ s : String, s ≠ "" → newDecoderEngineArg s = none) ∧
    newDecoderEngineArg "" = some "" := by
  constructor
  · intro s hs
    simp [newDecoderEngineArg, hs]
  · simp [newDecoderEngineArg]

/-- C9, witness: the non-empty name "generic" is ignored. -/
theorem c9_new_decoder_name_inverted_witness :
    ("generic" : String) ≠ "" ∧ newDecoderEngineArg "generic" = none :=
  ⟨by decide, c9_new_decoder_name_inverted.1 "generic" (by decide)⟩

/-! ### C10 -/

/-- C10, counterexample: `DecoderReader.Read` called with a zero-length
output slice does NOT always panic — when the first upstream read fails
with a non-EOF error the call returns `(0, that error)` before ever
touching `bytes[0]`. -/
theorem c10_empty_slice_no_panic_counterexample :
    DecoderReader.Read { dr0 with src := [SrcResult.fail 7 0] } 0 3 =
      ReadOutcome.ret { dr0 with src := [] } 0 (some (GoError.srcErr 7)) ∧
    (DecoderReader.Read { dr0 with src := [SrcResult.fail 7 0] } 0 3).isPanic = false := by
  decide

/-- C10 (amended): `Decoder.Read` and `Decoder.Feed` on a zero-length
slice always index element 0 of the empty slice and panic;
`DecoderReader.Read` on a zero-length output slice panics as soon as an
iteration's feed phase falls through to the poll step (which dereferences
`&bytes[0]`), but returns normally, never touching the slice, when the
first upstream read causes an early return (a non-EOF upstream error, or
EOF under fail-fast).  Safety of all three operations therefore requires
a non-empty caller buffer. -/
theorem c10_empty_buffer_amended
    (d : Decoder) (dr dr1 : DecoderReader) (e : Option GoError) (fuel : Nat)
    (hfp : feedPhase dr = FeedPhase.cont dr1 e) :
    Decoder.Read d 0 = none ∧ Decoder.Feed d 0 = none ∧
    DecoderReader.readLoop 0 (fuel + 1) dr = ReadOutcome.panicked dr1 := by
  refine ⟨rfl, rfl, ?_⟩
  rw [DecoderReader.readLoop, hfp]
  simp

/-- C10, witness for the amended theorem at a concrete input. -/
theorem c10_empty_buffer_amended_witness :
    feedPhase { dr0 with src := [SrcResult.ok 1] } =
      FeedPhase.cont { dr0 with src := [] } none ∧
    (Decoder.Read d0 0 = none ∧ Decoder.Feed d0 0 = none ∧
      DecoderReader.readLoop 0 1 { dr0 with src := [SrcResult.ok 1] } =
        ReadOutcome.panicked { dr0 with src := [] }) :=
  ⟨by decide,
    c10_empty_buffer_amended d0 { dr0 with src := [SrcResult.ok 1] }
      { dr0 with src := [] } none 0 (by decide)⟩
